import Mathlib

/-!
A shallow embedding of `src/homework.py`, a polling client that queries a
homework-review API and relays status-change notifications over a chat bot.

Python values are modelled by `PyVal`, Python exceptions by `PyError`, and
fallible functions by `Except PyError _`.  The functions `check_response`,
`parse_status` and `send_message` are translated directly from the source;
one iteration of the `while` loop in `main` is modelled by `runCycle`, with
the network and transport outcomes supplied by a `CycleEnv` record and the
loop's mutable variables (`current_timestamp`, `prev_message`) collected in
a `PollState` record.
-/

set_option autoImplicit false

namespace Homework

/-- A fragment of the Python value universe large enough for the data the
script handles: `None`, strings, integers, lists and string-keyed dicts. -/
inductive PyVal where
  | null : PyVal
  | str : String → PyVal
  | int : Int → PyVal
  | list : List PyVal → PyVal
  | dict : List (String × PyVal) → PyVal

/-- Python exceptions raised by the script, tagged with their class. -/
inductive PyError where
  | typeError (msg : String) : PyError
  | keyError (key : String) : PyError
  | valueError (msg : String) : PyError
  | indexError (msg : String) : PyError
  | exn (msg : String) : PyError

/-- Lookup of a string key in a dict body (Python dict keys are unique,
so the first match is the binding). -/
def dictGet (d : List (String × PyVal)) (k : String) : Option PyVal :=
  (d.find? (fun p => p.1 == k)).map (fun p => p.2)

/-- `str(error)`: the text interpolated by `f'... {error}'`.  For a
`KeyError`, Python renders the repr of the missing key. -/
def errStr : PyError → String
  | .typeError m => m
  | .keyError k => "\x27" ++ k ++ "\x27"
  | .valueError m => m
  | .indexError m => m
  | .exn m => m

mutual

/-- `repr(v)` for the modelled value fragment. -/
def pyRepr : PyVal → String
  | .null => "None"
  | .str s => "\x27" ++ s ++ "\x27"
  | .int n => toString n
  | .list xs => "[" ++ pyReprList xs ++ "]"
  | .dict d => "\x7b" ++ pyReprDict d ++ "\x7d"

/-- Comma-separated reprs of the elements of a list. -/
def pyReprList : List PyVal → String
  | [] => ""
  | [x] => pyRepr x
  | x :: xs => pyRepr x ++ ", " ++ pyReprList xs

/-- Comma-separated `key: value` reprs of the entries of a dict. -/
def pyReprDict : List (String × PyVal) → String
  | [] => ""
  | [(k, v)] => "\x27" ++ k ++ "\x27: " ++ pyRepr v
  | (k, v) :: xs => "\x27" ++ k ++ "\x27: " ++ pyRepr v ++ ", " ++ pyReprDict xs

end

/-- `str(v)`: what an f-string interpolates for `v`. -/
def pyStr (v : PyVal) : String :=
  match v with
  | .str s => s
  | _ => pyRepr v

/-- Whether a value may be used in a dict-membership test (`x in d`);
Python raises `TypeError: unhashable type` for lists and dicts. -/
def hashable : PyVal → Bool
  | .list _ => false
  | .dict _ => false
  | _ => true

/-- Whether the value is Python's `None`. -/
def PyVal.isNull : PyVal → Bool
  | .null => true
  | _ => false

/-- The `HOMEWORK_STATUSES` verdict table (src/homework.py lines 21–25). -/
def HOMEWORK_STATUSES : List (String × String) :=
  [("approved", "Работа проверена: ревьюеру всё понравилось. Ура!"),
   ("reviewing", "Работа взята на проверку ревьюером."),
   ("rejected", "Работа проверена: у ревьюера есть замечания.")]

/-- Lookup of a status value among the keys of `HOMEWORK_STATUSES`; a
non-string value matches no key. -/
def statusLookup (v : PyVal) : Option String :=
  match v with
  | .str s => (HOMEWORK_STATUSES.find? (fun p => p.1 == s)).map (fun p => p.2)
  | _ => Option.none

/-- `check_response` (src/homework.py lines 80–110).  Checks the API
response shape and returns the homework list.  The source first indexes
`response['homeworks']` at line 91, so a missing key raises a bare
`KeyError('homeworks')` there; the explicit membership test at line 100
is unreachable dead code.  An empty list raises `ValueError` at line 109. -/
def check_response (response : PyVal) : Except PyError (List PyVal) :=
  match response with
  | .dict d =>
    match dictGet d "homeworks" with
    | Option.none => .error (.keyError "homeworks")
    | Option.some hw =>
      match hw with
      | .list l =>
        if l.isEmpty then
          .error (.valueError "Получен пустой список домашних работ")
        else
          .ok l
      | _ => .error (.typeError
          "Тип данных в полученном ответе не соответствуют ожидаемым. Список домашних работ должен иметь тип \"list\".")
  | _ => .error (.typeError
      "Тип данных в полученном ответе не соответствуют ожидаемым. Ответ API должен иметь тип \"dict\".")

/-- The notification text built by the f-string at line 126 of the source. -/
def statusMessage (nameV : PyVal) (verdict : String) : String :=
  "Изменился статус проверки работы \"" ++ pyStr nameV ++ "\". " ++ verdict

/-- `parse_status` (src/homework.py lines 113–128).  Reads
`homework['homework_name']` and `homework['status']` (a missing key raises
`KeyError`), raises `ValueError` for a set but unrecognized status, returns
the formatted message for a recognized status, and `None` for a `None`
status. -/
def parse_status (homework : PyVal) : Except PyError (Option String) :=
  match homework with
  | .dict d =>
    match dictGet d "homework_name" with
    | Option.none => .error (.keyError "homework_name")
    | Option.some nameV =>
      match dictGet d "status" with
      | Option.none => .error (.keyError "status")
      | Option.some statusV =>
        if hashable statusV then
          match statusLookup statusV, statusV.isNull with
          | Option.some verdict, false => .ok (Option.some (statusMessage nameV verdict))
          | _, true => .ok Option.none
          | Option.none, false =>
            .error (.valueError "Получен недокументированный статус домашней работы")
        else
          .error (.typeError "unhashable type")
  | _ => .error (.typeError "homework is not subscriptable by string keys")

/-- `send_message` (src/homework.py lines 42–49): calls the bot transport
once; on any transport error it raises
`Exception('Ошибка отправки сообщения')`.  The transport outcome is an
input of the model. -/
def send_message (transportOk : Bool) : Except PyError Unit :=
  if transportOk then .ok () else .error (.exn "Ошибка отправки сообщения")

/-- The loop's mutable variables in `main`: `current_timestamp` (an int at
startup, later whatever `response.get('current_date')` returned, possibly
`None`) and `prev_message` (a string, initially `''`). -/
structure PollState where
  current_timestamp : PyVal
  prev_message : String

/-- The external outcomes of one loop iteration: what `get_api_answer`
produced (a decoded response, or the exception it raised), and whether the
bot transport succeeds for the normal send and for the error-notify send. -/
structure CycleEnv where
  fetchResult : Except PyError PyVal
  sendOk : Bool
  errSendOk : Bool

/-- `response.get(k)`: the binding of `k`, or `None` when absent
(src/homework.py line 173). -/
def pyGet (v : PyVal) (k : String) : PyVal :=
  match v with
  | .dict d => (dictGet d k).getD .null
  | _ => .null

/-- The `try` body of one loop iteration (src/homework.py lines 162–174):
fetch, validate, take `[0]`, parse, conditionally send and update
`prev_message`, then set `current_timestamp = response.get('current_date')`.
Returns the new state or the raised error, paired with the list of
messages with which `send_message` was invoked in this body. -/
def tryBody (st : PollState) (env : CycleEnv) : Except PyError PollState × List String :=
  match env.fetchResult with
  | .error e => (.error e, [])
  | .ok response =>
    match check_response response with
    | .error e => (.error e, [])
    | .ok homeworks =>
      match homeworks with
      | [] => (.error (.indexError "list index out of range"), [])
      | hw :: _ =>
        match parse_status hw with
        | .error e => (.error e, [])
        | .ok message =>
          match message with
          | Option.some m =>
            if m = st.prev_message then
              (.ok ⟨pyGet response "current_date", st.prev_message⟩, [])
            else
              match send_message env.sendOk with
              | .ok _ => (.ok ⟨pyGet response "current_date", m⟩, [m])
              | .error e => (.error e, [m])
          | Option.none =>
            (.ok ⟨pyGet response "current_date", st.prev_message⟩, [])

/-- How one loop iteration ends: either the cycle reaches `time.sleep` and
the loop will run again, or an exception escapes `main` and the process
terminates. -/
inductive CycleOutcome where
  | sleep (st : PollState) : CycleOutcome
  | crash (e : PyError) : CycleOutcome

/-- The failure message built in the `except` handler (line 176). -/
def errorReport (e : PyError) : String :=
  "Сбой в работе программы: " ++ errStr e

/-- One full loop iteration (src/homework.py lines 161–178): the `try`
body, and on any exception the handler that formats `errorReport` and
sends it.  If that send itself raises, nothing catches the exception and
the process crashes.  The second component is the list of messages with
which `send_message` was invoked during the iteration, in order. -/
def runCycle (st : PollState) (env : CycleEnv) : CycleOutcome × List String :=
  match tryBody st env with
  | (.ok st2, tr) => (.sleep st2, tr)
  | (.error e, tr) =>
    match send_message env.errSendOk with
    | .ok _ => (.sleep st, tr ++ [errorReport e])
    | .error e2 => (.crash e2, tr ++ [errorReport e])

/-- A concrete approved-homework record, for concrete instances of the
properties below. -/
def sampleRecord : PyVal :=
  .dict [("homework_name", .str "Project 1"), ("status", .str "approved")]

/-- A concrete well-formed API response containing `sampleRecord` and a
`current_date` cursor. -/
def sampleResponse : PyVal :=
  .dict [("homeworks", .list [sampleRecord]), ("current_date", .int 1000)]

/-- A concrete response lacking the `current_date` key. -/
def sampleResponseNoDate : PyVal :=
  .dict [("homeworks", .list [sampleRecord])]

/-- The notification text `parse_status` produces for `sampleRecord`. -/
def sampleMsg : String :=
  "Изменился статус проверки работы \"Project 1\". Работа проверена: ревьюеру всё понравилось. Ура!"

/-! ## Properties -/

/-- C3: for every record whose name is present (a string) and whose status
is one of the three recognized values, `parse_status` returns the message
built from the record's name and the fixed verdict text for that status —
so the output contains both and depends only on the pair `(name, status)`. -/
theorem claim_C3 (d : List (String × PyVal)) (name s verdict : String)
    (hn : dictGet d "homework_name" = Option.some (.str name))
    (hs : dictGet d "status" = Option.some (.str s))
    (hv : statusLookup (.str s) = Option.some verdict) :
    parse_status (.dict d) =
      .ok (Option.some ("Изменился статус проверки работы \"" ++ name ++ "\". " ++ verdict)) := by
  simp [parse_status, hn, hs, hv, hashable, PyVal.isNull, statusMessage, pyStr]

/-- C3 witness: a concrete approved record. -/
theorem claim_C3_witness :
    parse_status (.dict [("homework_name", .str "Project 1"), ("status", .str "approved")]) =
      .ok (Option.some ("Изменился статус проверки работы \"" ++ "Project 1" ++ "\". " ++
        "Работа проверена: ревьюеру всё понравилось. Ура!")) :=
  claim_C3 [("homework_name", .str "Project 1"), ("status", .str "approved")]
    "Project 1" "approved" "Работа проверена: ревьюеру всё понравилось. Ура!" rfl rfl rfl

/-- C4: for every record whose name is present and whose status is present,
non-null, hashable, and not one of the three recognized values,
`parse_status` raises the unrecognized-status `ValueError` and returns no
message. -/
theorem claim_C4 (d : List (String × PyVal)) (nameV statusV : PyVal)
    (hn : dictGet d "homework_name" = Option.some nameV)
    (hs : dictGet d "status" = Option.some statusV)
    (hh : hashable statusV = true)
    (hnn : statusV.isNull = false)
    (hv : statusLookup statusV = Option.none) :
    parse_status (.dict d) =
      .error (.valueError "Получен недокументированный статус домашней работы") := by
  simp [parse_status, hn, hs, hh, hnn, hv]

/-- C4 witness: a concrete record with status `unknown_value`. -/
theorem claim_C4_witness :
    parse_status (.dict [("homework_name", .str "X"), ("status", .str "unknown_value")]) =
      .error (.valueError "Получен недокументированный статус домашней работы") :=
  claim_C4 [("homework_name", .str "X"), ("status", .str "unknown_value")]
    (.str "X") (.str "unknown_value") rfl rfl rfl rfl rfl

/-- C5: for every response that is a dict binding `homeworks` to a
non-empty list, `check_response` returns exactly that list. -/
theorem claim_C5 (d : List (String × PyVal)) (l : List PyVal)
    (h : dictGet d "homeworks" = Option.some (.list l)) (hne : l ≠ []) :
    check_response (.dict d) = .ok l := by
  simp [check_response, h, hne]

/-- C5 witness: a concrete response with a one-element homework list. -/
theorem claim_C5_witness :
    check_response (.dict [("homeworks", .list [.str "hw"]), ("current_date", .int 1000)]) =
      .ok [.str "hw"] :=
  claim_C5 [("homeworks", .list [.str "hw"]), ("current_date", .int 1000)]
    [.str "hw"] rfl (by simp)

/-- C6: for every response that is a dict without the key `homeworks`,
`check_response` raises `KeyError('homeworks')` (at the subscript on
line 91 of the source) and returns no value. -/
theorem claim_C6 (d : List (String × PyVal))
    (h : dictGet d "homeworks" = Option.none) :
    check_response (.dict d) = .error (.keyError "homeworks") := by
  simp [check_response, h]

/-- C6 witness: a concrete dict lacking the `homeworks` key. -/
theorem claim_C6_witness :
    check_response (.dict [("current_date", .int 5)]) = .error (.keyError "homeworks") :=
  claim_C6 [("current_date", .int 5)] rfl

/-- C7 counterexample: the claim says a response whose `homeworks` key is
bound to an empty list has that empty sequence returned as-is, but
`check_response` raises `ValueError` on it (line 109 of the source). -/
theorem claim_C7_counterexample :
    check_response (.dict [("homeworks", .list [])]) =
      .error (.valueError "Получен пустой список домашних работ") := rfl

/-- C7 (amended): for every response that is a dict whose `homeworks` key
is bound to an empty list, `check_response` raises the empty-list
`ValueError` rather than returning. -/
theorem claim_C7 (d : List (String × PyVal))
    (h : dictGet d "homeworks" = Option.some (.list [])) :
    check_response (.dict d) =
      .error (.valueError "Получен пустой список домашних работ") := by
  simp [check_response, h]

/-- C7 witness: a concrete response with an empty homework list. -/
theorem claim_C7_witness :
    check_response (.dict [("homeworks", .list []), ("current_date", .int 9)]) =
      .error (.valueError "Получен пустой список домашних работ") :=
  claim_C7 [("homeworks", .list []), ("current_date", .int 9)] rfl

/-- Every list `check_response` returns is non-empty: the empty list is
rejected with `ValueError` before the `return`. -/
theorem check_response_ok_ne_nil (r : PyVal) (l : List PyVal)
    (h : check_response r = .ok l) : l ≠ [] := by
  unfold check_response at h
  split at h
  · rename_i d
    cases hk : dictGet d "homeworks" with
    | none => rw [hk] at h; cases h
    | some hw =>
      rw [hk] at h
      cases hw with
      | list l2 =>
        by_cases he : l2.isEmpty
        · simp [he] at h
        · simp [he] at h
          subst h
          simpa [List.isEmpty_iff] using he
      | null => cases h
      | str _ => cases h
      | int _ => cases h
      | dict _ => cases h
  · cases h

/-- Every error `parse_status` raises is a `KeyError`, `ValueError` or
`TypeError` — never an `IndexError`. -/
theorem parse_status_error_shape (hw : PyVal) (e : PyError)
    (h : parse_status hw = .error e) :
    ∀ m : String, e ≠ .indexError m := by
  unfold parse_status at h
  split at h <;> try ((cases h) <;> (intro m hx; cases hx))
  rename_i d
  split at h <;> try ((cases h) <;> (intro m hx; cases hx))
  rename_i nameV _
  split at h <;> try ((cases h) <;> (intro m hx; cases hx))
  rename_i statusV _
  split at h <;> try ((cases h) <;> (intro m hx; cases hx))
  split at h <;> ((cases h) <;> (intro m hx; cases hx))

/-- C10: every value `check_response` returns is a non-empty list, so the
`[0]` selection of the most-recent record at line 166 of the source is in
range: the loop body never raises the out-of-range `IndexError`. -/
theorem claim_C10 (st : PollState) (env : CycleEnv) (r : PyVal) (l : List PyVal)
    (hf : env.fetchResult = .ok r) (hc : check_response r = .ok l) :
    (∃ hd tl, l = hd :: tl) ∧
      ∀ m : String, (tryBody st env).1 ≠ .error (.indexError m) := by
  have hne := check_response_ok_ne_nil r l hc
  obtain ⟨hd, tl, rfl⟩ : ∃ hd tl, l = hd :: tl := by
    cases l with
    | nil => exact absurd rfl hne
    | cons a t => exact ⟨a, t, rfl⟩
  refine ⟨⟨hd, tl, rfl⟩, ?_⟩
  intro m
  simp only [tryBody, hf, hc]
  cases hp : parse_status hd with
  | error e => simpa using parse_status_error_shape hd e hp m
  | ok message =>
    cases message with
    | none => simp
    | some msgText =>
      by_cases hpm : msgText = st.prev_message
      · simp [hpm]
      · cases hok : env.sendOk <;> simp [hpm, send_message, hok]

/-- C10 witness: a cycle over a concrete well-formed response. -/
theorem claim_C10_witness :
    (∃ hd tl, [sampleRecord] = hd :: tl) ∧
      ∀ m : String,
        (tryBody ⟨.int 0, ""⟩ ⟨.ok sampleResponse, true, true⟩).1 ≠
          .error (.indexError m) :=
  claim_C10 ⟨.int 0, ""⟩ ⟨.ok sampleResponse, true, true⟩ sampleResponse
    [sampleRecord] rfl rfl

/-- C1: across two consecutive cycles that both compute the same non-null
notification text `M`, starting from a state whose stored message differs
from `M` and with a working transport, `send_message` is invoked exactly
once: the first cycle sends `M` and stores it, the second cycle invokes no
send because the computed message equals the stored `prev_message`. -/
theorem claim_C1 (st : PollState) (env1 env2 : CycleEnv)
    (r1 r2 hw1 hw2 : PyVal) (t1 t2 : List PyVal) (M : String)
    (hf1 : env1.fetchResult = .ok r1)
    (hc1 : check_response r1 = .ok (hw1 :: t1))
    (hp1 : parse_status hw1 = .ok (Option.some M))
    (hf2 : env2.fetchResult = .ok r2)
    (hc2 : check_response r2 = .ok (hw2 :: t2))
    (hp2 : parse_status hw2 = .ok (Option.some M))
    (hprev : M ≠ st.prev_message)
    (hsend : env1.sendOk = true) :
    runCycle st env1 = (.sleep ⟨pyGet r1 "current_date", M⟩, [M]) ∧
      (runCycle ⟨pyGet r1 "current_date", M⟩ env2).2 = [] := by
  have h1 : tryBody st env1 = (.ok ⟨pyGet r1 "current_date", M⟩, [M]) := by
    simp [tryBody, hf1, hc1, hp1, hprev, hsend, send_message]
  have h2 : tryBody ⟨pyGet r1 "current_date", M⟩ env2 =
      (.ok ⟨pyGet r2 "current_date", M⟩, []) := by
    simp [tryBody, hf2, hc2, hp2]
  exact ⟨by simp [runCycle, h1], by simp [runCycle, h2]⟩

/-- C1 witness: two cycles over the same concrete approved response. -/
theorem claim_C1_witness :
    runCycle ⟨.int 0, ""⟩ ⟨.ok sampleResponse, true, true⟩ =
      (.sleep ⟨pyGet sampleResponse "current_date", sampleMsg⟩, [sampleMsg]) ∧
      (runCycle ⟨pyGet sampleResponse "current_date", sampleMsg⟩
        ⟨.ok sampleResponse, true, true⟩).2 = [] :=
  claim_C1 ⟨.int 0, ""⟩ ⟨.ok sampleResponse, true, true⟩ ⟨.ok sampleResponse, true, true⟩
    sampleResponse sampleResponse sampleRecord sampleRecord [] [] sampleMsg
    rfl rfl rfl rfl rfl rfl (by decide) rfl

/-- C2 counterexample: the claim says no error raised after loop entry
terminates the process, but when the error-notify send itself fails,
`send_message` re-raises inside the `except` handler and nothing catches
it: the process crashes. -/
theorem claim_C2_counterexample :
    runCycle ⟨.int 0, ""⟩ ⟨.error (.exn "boom"), true, false⟩ =
      (.crash (.exn "Ошибка отправки сообщения"), ["Сбой в работе программы: boom"]) := rfl

/-- C2 (amended): for every exception raised in the `try` body, the loop
catches it, formats the failure message embedding the error's description,
and invokes `send_message` with it; if that send succeeds the cycle
proceeds to sleep, but if the error-notify send itself fails, the
re-raised exception is uncaught and terminates the process. -/
theorem claim_C2 (st : PollState) (env : CycleEnv) (e : PyError) (tr : List String)
    (h : tryBody st env = (.error e, tr)) :
    runCycle st env =
      ((if env.errSendOk then CycleOutcome.sleep st
        else CycleOutcome.crash (.exn "Ошибка отправки сообщения")),
       tr ++ [errorReport e]) := by
  cases hok : env.errSendOk <;> simp [runCycle, h, send_message, hok]

/-- C2 witness: a concrete fetch failure with a working error-notify
transport is reported and the loop proceeds to sleep. -/
theorem claim_C2_witness :
    runCycle ⟨.int 0, ""⟩ ⟨.error (.exn "boom"), true, true⟩ =
      (.sleep ⟨.int 0, ""⟩, ["Сбой в работе программы: boom"]) := by
  have h := claim_C2 ⟨.int 0, ""⟩ ⟨.error (.exn "boom"), true, true⟩ (.exn "boom") [] rfl
  simpa [errorReport, errStr] using h

/-- C8 counterexample: the claim says the prior cursor is kept when
`current_date` is absent, but `current_timestamp = response.get('current_date')`
sets the cursor to `None` in that case: starting from cursor `100`, a
successful cycle over a response without `current_date` leaves the cursor
`None`, not `100`. -/
theorem claim_C8_counterexample :
    runCycle ⟨.int 100, ""⟩ ⟨.ok sampleResponseNoDate, true, true⟩ =
      (.sleep ⟨.null, sampleMsg⟩, [sampleMsg]) ∧ PyVal.null ≠ PyVal.int 100 :=
  ⟨rfl, fun hx => PyVal.noConfusion hx⟩

/-- C8 (amended): after every successful cycle the cursor is set to
`response.get('current_date')` — the server-provided value when the key is
present, and `None` (not the prior cursor) when it is absent. -/
theorem claim_C8 (st : PollState) (env : CycleEnv) (r : PyVal) (st2 : PollState)
    (tr : List String)
    (hf : env.fetchResult = .ok r)
    (h : tryBody st env = (.ok st2, tr)) :
    runCycle st env = (.sleep st2, tr) ∧
      st2.current_timestamp = pyGet r "current_date" := by
  refine ⟨by simp [runCycle, h], ?_⟩
  simp only [tryBody, hf] at h
  repeat' split at h
  all_goals simp_all
  all_goals (obtain ⟨h1, h2⟩ := h; subst h1; rfl)

/-- C8 witness: a successful cycle over a concrete response carrying
`current_date = 1000`. -/
theorem claim_C8_witness :
    runCycle ⟨.int 0, ""⟩ ⟨.ok sampleResponse, true, true⟩ =
      (.sleep ⟨pyGet sampleResponse "current_date", sampleMsg⟩, [sampleMsg]) ∧
      (⟨pyGet sampleResponse "current_date", sampleMsg⟩ : PollState).current_timestamp =
        pyGet sampleResponse "current_date" :=
  claim_C8 ⟨.int 0, ""⟩ ⟨.ok sampleResponse, true, true⟩ sampleResponse
    ⟨pyGet sampleResponse "current_date", sampleMsg⟩ [sampleMsg] rfl rfl

/-- C9 counterexample: the claim says `prev_message` is updated to the
attempted message even when delivery fails, but after a failed send the
state is returned unchanged: the attempted message `sampleMsg` is
non-empty while `prev_message` stays `''`. -/
theorem claim_C9_counterexample :
    runCycle ⟨.int 0, ""⟩ ⟨.ok sampleResponse, false, true⟩ =
      (.sleep ⟨.int 0, ""⟩, [sampleMsg, errorReport (.exn "Ошибка отправки сообщения")]) ∧
      sampleMsg ≠ "" :=
  ⟨rfl, by decide⟩

/-- C9 (amended): `prev_message` is updated only on successful delivery.
After a cycle whose send fails, the state is unchanged, and the next cycle
that computes the same message invokes `send_message` with it again (its
first send invocation is that message). -/
theorem claim_C9 (st : PollState) (env1 env2 : CycleEnv) (r1 r2 hw1 hw2 : PyVal)
    (t1 t2 : List PyVal) (M : String)
    (hf1 : env1.fetchResult = .ok r1) (hc1 : check_response r1 = .ok (hw1 :: t1))
    (hp1 : parse_status hw1 = .ok (Option.some M))
    (hprev : M ≠ st.prev_message)
    (hsend : env1.sendOk = false) (herr : env1.errSendOk = true)
    (hf2 : env2.fetchResult = .ok r2) (hc2 : check_response r2 = .ok (hw2 :: t2))
    (hp2 : parse_status hw2 = .ok (Option.some M)) :
    runCycle st env1 = (.sleep st, [M, errorReport (.exn "Ошибка отправки сообщения")]) ∧
      (runCycle st env2).2.head? = Option.some M := by
  have h1 : tryBody st env1 = (.error (.exn "Ошибка отправки сообщения"), [M]) := by
    simp [tryBody, hf1, hc1, hp1, hprev, hsend, send_message]
  refine ⟨by simp [runCycle, h1, send_message, herr], ?_⟩
  cases hok : env2.sendOk
  · have h2 : tryBody st env2 = (.error (.exn "Ошибка отправки сообщения"), [M]) := by
      simp [tryBody, hf2, hc2, hp2, hprev, hok, send_message]
    cases hok2 : env2.errSendOk <;> simp [runCycle, h2, send_message, hok2]
  · have h2 : tryBody st env2 = (.ok ⟨pyGet r2 "current_date", M⟩, [M]) := by
      simp [tryBody, hf2, hc2, hp2, hprev, hok, send_message]
    simp [runCycle, h2]

/-- C9 witness: a concrete failed-send cycle followed by a successful one
over the same response. -/
theorem claim_C9_witness :
    runCycle ⟨.int 0, ""⟩ ⟨.ok sampleResponse, false, true⟩ =
      (.sleep ⟨.int 0, ""⟩, [sampleMsg, errorReport (.exn "Ошибка отправки сообщения")]) ∧
      (runCycle ⟨.int 0, ""⟩ ⟨.ok sampleResponse, true, true⟩).2.head? =
        Option.some sampleMsg :=
  claim_C9 ⟨.int 0, ""⟩ ⟨.ok sampleResponse, false, true⟩ ⟨.ok sampleResponse, true, true⟩
    sampleResponse sampleResponse sampleRecord sampleRecord [] [] sampleMsg
    rfl rfl rfl (by decide) rfl rfl rfl rfl rfl

end Homework
